import Mathlib

/-!
Verification of the `summarize` repository's transcript-resolution and
streaming-chunk reconciliation subsystem.

Strings of the TypeScript source are modelled as `List Char`.  Each Lean
definition is a direct shallow embedding of the correspondingly named
function of the source; asynchronous collaborators that live outside the
embedded files (network fetches, subprocesses) are supplied as explicit
environment records, so a run of the embedded control flow is a pure
function of its inputs and of the recorded outcomes of those collaborators.
-/

namespace Summarize

/-! ## Stream reconciler (src/run/streaming.ts) -/

/-- Embedding of `normalizeStreamText`: `input.replace(/\r\n?/g, '\n')`.
Each `"\r\n"` pair and each lone `'\r'` becomes a single `'\n'`. -/
def normalizeStreamText : List Char → List Char
  | [] => []
  | '\r' :: '\n' :: rest => '\n' :: normalizeStreamText rest
  | '\r' :: rest => '\n' :: normalizeStreamText rest
  | c :: rest => c :: normalizeStreamText rest

/-- Fuelled scan counting equal leading characters, stopping at the first
mismatch, at the end of either list, or when the fuel (the scan limit)
runs out. -/
def cplFuel : Nat → List Char → List Char → Nat
  | 0, _, _ => 0
  | _ + 1, [], _ => 0
  | _ + 1, _, [] => 0
  | n + 1, a :: as, b :: bs => if a = b then cplFuel n as bs + 1 else 0

/-- Embedding of `commonPrefixLength(a, b, limit = 4096)` at its default
limit (the source always calls it with the default). -/
def commonPrefixLength (a b : List Char) : Nat :=
  cplFuel 4096 a b

/-- `startsWithL s p` embeds JavaScript `s.startsWith(p)`. -/
def startsWithL : List Char → List Char → Bool
  | _, [] => true
  | [], _ :: _ => false
  | a :: as, b :: bs => a = b && startsWithL as bs

/-- `takeRight n l` embeds `l.slice(-n)` for `1 ≤ n ≤ l.length`. -/
def takeRight (n : Nat) (l : List Char) : List Char :=
  l.drop (l.length - n)

/-- Embedding of the overlap-stitch loop of `mergeStreamingChunk`:
`for (let len = maxOverlap; len > 0; len -= 1)` returns the largest
`len` with `prev.slice(-len) === nextChunk.slice(0, len)`. -/
def findOverlap (prev nc : List Char) : Nat → Option Nat
  | 0 => none
  | n + 1 =>
    if takeRight (n + 1) prev = nc.take (n + 1) then some (n + 1)
    else findOverlap prev nc n

/-- The body of `mergeStreamingChunk` after line-ending normalization
(lines 22-44 of streaming.ts), acting on the normalized `prev`/`nextChunk`. -/
def mergeCore (prev nc : List Char) : List Char × List Char :=
  if prev = [] then (nc, nc)
  else if startsWithL nc prev then (nc, nc.drop prev.length)
  else if startsWithL prev nc then (prev, [])
  else
    -- `Math.floor(prev.length * 0.9)` on an exact float: for lengths far
    -- below 2^52 this equals Nat floor division `9 * len / 10`; the
    -- `Math.max` with the possibly negative `prev.length - 64` is Nat
    -- truncated subtraction joined with `max`.
    let prefixGate : Bool :=
      decide (nc.length ≥ prev.length) &&
        (let k := commonPrefixLength prev nc
         decide (0 < k) && decide (k ≥ max (prev.length - 64) (9 * prev.length / 10)))
    if prefixGate then
      let k := commonPrefixLength prev nc
      (nc, nc.drop k)
    else
      match findOverlap prev nc (min (min prev.length nc.length) 2048) with
      | some l => (prev ++ nc.drop l, nc.drop l)
      | none => (prev ++ nc, nc)

/-- Embedding of `mergeStreamingChunk(previous, chunk)`; the pair is
`(next, appended)`. -/
def mergeStreamingChunk (previous chunk : List Char) : List Char × List Char :=
  if chunk = [] then (previous, [])
  else mergeCore (normalizeStreamText previous) (normalizeStreamText chunk)

/-- Sequential reconciliation of a stream of chunks, as callers of
`mergeStreamingChunk` use it: fold the merged `next` over the chunks. -/
def foldMerge (acc : List Char) (ds : List (List Char)) : List Char :=
  ds.foldl (fun a d => (mergeStreamingChunk a d).1) acc

/-- `crFree l` holds when `l` contains no carriage return. -/
def crFree (l : List Char) : Bool :=
  l.all (fun c => c != '\r')

/-- A reconciliation step on which the merge heuristics cannot misfire:
either side is empty, or the accumulated text and the incoming delta start
with different characters and no trailing run of the accumulated text
(within the code's 2048-character overlap scan) reappears at the head of
the delta.  This makes precise the spec's informal notion of a
"legitimate pure-delta stream". -/
def goodDelta (acc d : List Char) : Bool :=
  acc.isEmpty || d.isEmpty ||
    (acc.head? != d.head? &&
      (findOverlap acc d (min (min acc.length d.length) 2048) == none))

/-- All steps of a delta sequence are `goodDelta` with respect to the text
accumulated so far (which, for a pure-delta stream, is the concatenation of
the chunks already seen). -/
def goodSteps : List Char → List (List Char) → Bool
  | _, [] => true
  | acc, d :: rest => goodDelta acc d && goodSteps (acc ++ d) rest

/-! ## YouTube transcript resolver
(src/content/link-preview/transcript/providers/youtube.ts)

The resolver's own control flow is embedded below; the awaited
sub-providers (`fetchTranscriptFromTranscriptEndpoint`,
`fetchTranscriptFromCaptionTracks`, `fetchTranscriptWithApify`,
`fetchTranscriptWithYtDlp`), the html config extraction, the url video-id
extraction and `normalizeTranscriptText` live in modules outside the
embedded file and are supplied as a `YoutubeEnv` record holding their
outcomes for the one resolution call. -/

inductive YoutubeTranscriptMode where
  | auto
  | web
  | apify
  | ytDlp
deriving DecidableEq, Repr

inductive TranscriptSource where
  | youtubei
  | captionTracks
  | apify
  | ytDlp
  | unavailable
deriving DecidableEq, Repr

structure ProviderContext where
  url : String
  html : Option String
  resourceKey : Option String

structure ProviderFetchOptions where
  youtubeTranscriptMode : YoutubeTranscriptMode
  openaiApiKey : Option String
  falApiKey : Option String
  apifyApiToken : Option String
  ytDlpPath : Option String

/-- Result shape of `fetchTranscriptWithYtDlp` as consumed by the resolver. -/
structure YtDlpFetchResult where
  text : Option String
  provider : Option String
  error : Option String
  notes : List String

/-- Recorded outcomes of the resolver's external collaborators for one call. -/
structure YoutubeEnv where
  youtubeiConfig : Option String
  youtubeiTranscript : Option String
  captionsTranscript : Option String
  apifyTranscript : Option String
  ytdlpResult : YtDlpFetchResult
  videoIdFromUrl : Option String
  normalizeTranscriptText : String → String

structure ProviderResult where
  text : Option String
  source : Option TranscriptSource
  metadata : List (String × Option String)
  attemptedProviders : List TranscriptSource
  notes : Option String
deriving DecidableEq, Repr

deriving instance DecidableEq for Except

/-- JavaScript truthiness of a `string | null` value: `null` and `''` are
falsy. -/
def truthy : Option String → Bool
  | none => false
  | some s => !s.isEmpty

/-- JavaScript `String.prototype.trim`, modelled over the character list
(whitespace per `Char.isWhitespace`). -/
def jsTrim (s : String) : String :=
  String.mk (((s.data.dropWhile Char.isWhitespace).reverse.dropWhile Char.isWhitespace).reverse)

/-- Lines 43-47 of youtube.ts: `context.resourceKey ?? extractYouTubeVideoId(url)`,
trimmed and required nonempty. -/
def effectiveVideoId (ctx : ProviderContext) (env : YoutubeEnv) : Option String :=
  let candidate := match ctx.resourceKey with
    | some s => some s
    | none => env.videoIdFromUrl
  match candidate with
  | some s => if 0 < (jsTrim s).length then some (jsTrim s) else none
  | none => none

/-- The `{ text: null, source: null, attemptedProviders: [] }` short-circuit
result. -/
def ytEmptyResult : ProviderResult :=
  { text := none, source := none, metadata := [], attemptedProviders := [], notes := none }

/-- `notes.length > 0 ? notes.join('; ') : null`. -/
def joinNotes (notes : List String) : Option String :=
  if notes.isEmpty then none else some (String.intercalate "; " notes)

/-- The final `unavailable` return of `fetchTranscript` (lines 131-138). -/
def ytUnavailableResult (attempted : List TranscriptSource) (notes : List String) :
    ProviderResult :=
  { text := none, source := some .unavailable,
    metadata := [("provider", some "youtube"), ("reason", some "no_transcript_available")],
    attemptedProviders := attempted ++ [.unavailable],
    notes := joinNotes notes }

/-- Lines 105-129 of youtube.ts: the yt-dlp block followed by the final
`unavailable` return.  `attempted` and `notes` are the accumulators at
entry to the block. -/
def ytDlpPhase (mode : YoutubeTranscriptMode) (canRunYtDlp : Bool) (env : YoutubeEnv)
    (attempted : List TranscriptSource) (notes : List String) :
    Except String ProviderResult :=
  if mode == .ytDlp || (mode == .auto && canRunYtDlp) then
    let attempted := attempted ++ [TranscriptSource.ytDlp]
    let notes := notes ++ env.ytdlpResult.notes
    let cont : Except String ProviderResult :=
      if mode == .ytDlp && env.ytdlpResult.error.isSome then
        .error ((env.ytdlpResult.error).getD "")
      else .ok (ytUnavailableResult attempted notes)
    match env.ytdlpResult.text with
    | some t =>
      if !t.isEmpty then
        .ok { text := some (env.normalizeTranscriptText t),
              source := some .ytDlp,
              metadata := [("provider", some "yt-dlp"),
                           ("transcriptionProvider", env.ytdlpResult.provider)],
              attemptedProviders := attempted,
              notes := joinNotes notes }
      else cont
    | none => cont
  else .ok (ytUnavailableResult attempted notes)

/-- Lines 52-85 of youtube.ts: the web attempts (`youtubei` only when a
config was extracted from the html, then `captionTracks`), run in modes
`auto` and `web`.  `Sum.inl` is an early return, `Sum.inr` carries the
accumulated `attemptedProviders`. -/
def ytWebPhase (mode : YoutubeTranscriptMode) (env : YoutubeEnv) :
    Sum ProviderResult (List TranscriptSource) :=
  if mode == .auto || mode == .web then
    let step1 : Sum ProviderResult (List TranscriptSource) :=
      match env.youtubeiConfig with
      | some _ =>
        match env.youtubeiTranscript with
        | some t =>
          if !t.isEmpty then
            Sum.inl { text := some (env.normalizeTranscriptText t),
                      source := some .youtubei,
                      metadata := [("provider", some "youtubei")],
                      attemptedProviders := [.youtubei], notes := none }
          else Sum.inr [TranscriptSource.youtubei]
        | none => Sum.inr [TranscriptSource.youtubei]
      | none => Sum.inr []
    match step1 with
    | Sum.inl r => Sum.inl r
    | Sum.inr att1 =>
      let att2 := att1 ++ [TranscriptSource.captionTracks]
      match env.captionsTranscript with
      | some t =>
        if !t.isEmpty then
          Sum.inl { text := some (env.normalizeTranscriptText t),
                    source := some .captionTracks,
                    metadata := [("provider", some "captionTracks")],
                    attemptedProviders := att2, notes := none }
        else Sum.inr att2
      | none => Sum.inr att2
  else Sum.inr []

/-- Lines 87-103 of youtube.ts: the apify attempt, run in modes `auto`
and `apify`.  The attempt is gated only on the mode — not on the
presence of an apify token. -/
def ytApifyPhase (mode : YoutubeTranscriptMode) (env : YoutubeEnv)
    (attempted : List TranscriptSource) :
    Sum ProviderResult (List TranscriptSource) :=
  if mode == .auto || mode == .apify then
    let att := attempted ++ [TranscriptSource.apify]
    match env.apifyTranscript with
    | some t =>
      if !t.isEmpty then
        Sum.inl { text := some (env.normalizeTranscriptText t),
                  source := some .apify,
                  metadata := [("provider", some "apify")],
                  attemptedProviders := att, notes := none }
      else Sum.inr att
    | none => Sum.inr att
  else Sum.inr attempted

/-- Embedding of `fetchTranscript` of youtube.ts.  A thrown error is an
`Except.error` carrying the error message. -/
def fetchTranscript (ctx : ProviderContext) (opts : ProviderFetchOptions)
    (env : YoutubeEnv) : Except String ProviderResult :=
  let mode := opts.youtubeTranscriptMode
  let hasYtDlpCredentials := truthy opts.openaiApiKey || truthy opts.falApiKey
  let canRunYtDlp := truthy opts.ytDlpPath && hasYtDlpCredentials
  if mode == .ytDlp && !truthy opts.ytDlpPath then
    .error "Missing YT_DLP_PATH for --youtube yt-dlp"
  else if mode == .ytDlp && !hasYtDlpCredentials then
    .error "Missing OPENAI_API_KEY or FAL_KEY for --youtube yt-dlp"
  else if !truthy ctx.html then
    .ok ytEmptyResult
  else
    match effectiveVideoId ctx env with
    | none => .ok ytEmptyResult
    | some _ =>
      match ytWebPhase mode env with
      | Sum.inl r => .ok r
      | Sum.inr attempted =>
        match ytApifyPhase mode env attempted with
        | Sum.inl r => .ok r
        | Sum.inr attempted2 => ytDlpPhase mode canRunYtDlp env attempted2 []

/-- Sample context for concrete evaluations: a YouTube page whose html was
fetched and whose video id is derivable. -/
def ctxC3 : ProviderContext :=
  { url := "https://youtube.com/watch?v=abc", html := some "<html>", resourceKey := none }

/-- Sample options: `auto` mode with no credentials configured at all. -/
def optsC3 : ProviderFetchOptions :=
  { youtubeTranscriptMode := .auto, openaiApiKey := none, falApiKey := none,
    apifyApiToken := none, ytDlpPath := none }

/-- Sample environment: every provider yields no text. -/
def envC3 : YoutubeEnv :=
  { youtubeiConfig := none, youtubeiTranscript := none, captionsTranscript := none,
    apifyTranscript := none, ytdlpResult := ⟨none, none, none, []⟩,
    videoIdFromUrl := some "abc", normalizeTranscriptText := id }

/-- Sample options: explicit `yt-dlp` mode with nothing configured. -/
def optsC4 : ProviderFetchOptions :=
  { youtubeTranscriptMode := .ytDlp, openaiApiKey := none, falApiKey := none,
    apifyApiToken := none, ytDlpPath := none }

/-- Second sample environment, with every provider succeeding, to witness
that the configuration error does not depend on provider outcomes. -/
def envC4b : YoutubeEnv :=
  { youtubeiConfig := some "cfg", youtubeiTranscript := some "yt text",
    captionsTranscript := some "cap", apifyTranscript := some "apify text",
    ytdlpResult := ⟨some "t", some "openai", some "err", ["note"]⟩,
    videoIdFromUrl := some "zzz", normalizeTranscriptText := id }

/-- Sample context whose html fetch produced nothing. -/
def ctxC10 : ProviderContext :=
  { url := "https://youtube.com/watch?v=abc", html := none, resourceKey := none }

/-! ## Whisper-family transcription engine (src/transcription/whisper.ts)

The engine's control flow is embedded below.  Outcomes of awaited
collaborators — the whisper.cpp binary, ffmpeg invocations, the OpenAI and
FAL HTTP calls — are supplied as environment records; temp-file reads and
writes that the source does not guard with catch blocks are modelled as
succeeding.  The recursion between the bytes entry point and the file
entry point (chunked transcription) is bounded by an explicit fuel
parameter; running out of fuel or out of recorded environment is modelled
as a thrown error, which no claim's theorem is about. -/

inductive TranscriptionProvider where
  | openai
  | fal
  | whisperCpp
deriving DecidableEq, Repr

structure WhisperTranscriptionResult where
  text : Option String
  provider : Option TranscriptionProvider
  error : Option String
  notes : List String
deriving DecidableEq, Repr

def MAX_OPENAI_UPLOAD_BYTES : Nat := 24 * 1024 * 1024

def DEFAULT_SEGMENT_SECONDS : Nat := 600

/-- `s.toLowerCase()` (ASCII, as the compared literals are ASCII). -/
def toLowerStr (s : String) : String :=
  String.mk (s.data.map Char.toLower)

/-- `s.startsWith(p)` over the character lists. -/
def startsWithStr (s p : String) : Bool :=
  startsWithL s.data p.data

/-- `s.endsWith(p)` over the character lists. -/
def endsWithStr (s p : String) : Bool :=
  startsWithL s.data.reverse p.data.reverse

def containsSubL : List Char → List Char → Bool
  | [], sub => sub.isEmpty
  | c :: t, sub => startsWithL (c :: t) sub || containsSubL t sub

/-- `s.includes(sub)` over the character lists. -/
def containsSub (s sub : String) : Bool :=
  containsSubL s.data sub.data

/-- `wrapError(prefix, error).message`: the wrapped message chain. -/
def wrapErrorMsg (pre msg : String) : String :=
  pre ++ ": " ++ msg

/-- Embedding of `isWhisperCppSupportedMediaType`:
`mediaType.toLowerCase().split(';')[0]?.trim() ?? ''` against the
supported list. -/
def isWhisperCppSupportedMediaType (mediaType : String) : Bool :=
  let type := jsTrim (String.mk ((toLowerStr mediaType).data.takeWhile (fun c => c != ';')))
  type == "audio/mpeg" || type == "audio/mp3" || type == "audio/mpga" ||
    type == "audio/ogg" || type == "audio/oga" || type == "application/ogg" ||
    type == "audio/flac" || type == "audio/x-wav" || type == "audio/wav"

/-- Embedding of `resolveWhisperCppModelLabelFromPath`: the path's last
`/`-segment, stripped of a leading `ggml-` and of case-insensitive `.bin`
and `.en` suffixes, trimmed, falling back to the segment when empty. -/
def resolveWhisperCppModelLabelFromPath (modelPath : String) : String :=
  let base := String.mk ((modelPath.data.reverse.takeWhile (fun c => c != '/')).reverse)
  let name0 := if startsWithStr base "ggml-" then String.mk (base.data.drop 5) else base
  let name1 :=
    if endsWithStr (toLowerStr name0) ".bin" then
      String.mk (name0.data.take (name0.data.length - 4))
    else name0
  let name2 :=
    if endsWithStr (toLowerStr name1) ".en" then
      String.mk (name1.data.take (name1.data.length - 3))
    else name1
  let name := jsTrim name2
  if 0 < name.length then name else base

/-- Embedding of `shouldRetryOpenAiViaFfmpeg` on the error's message. -/
def shouldRetryOpenAiViaFfmpeg (msg : String) : Bool :=
  let m := toLowerStr msg
  containsSub m "unrecognized file format" || containsSub m "could not be decoded" ||
    containsSub m "format is not supported"

/-- Embedding of `formatBytes` with exact arithmetic in place of the
source's float divide-loop (`value /= 1024` and `toFixed`); rounding is
half-up, units stop at GB. -/
def formatBytesUnit : Nat → String
  | 0 => "B"
  | 1 => "KB"
  | 2 => "MB"
  | _ => "GB"

def formatBytes (bytes : Nat) : String :=
  let idx : Nat :=
    if bytes ≥ 1024 ^ 3 then 3 else if bytes ≥ 1024 ^ 2 then 2
    else if bytes ≥ 1024 then 1 else 0
  let den := 1024 ^ idx
  if bytes ≥ 10 * den || idx == 0 then
    toString ((2 * bytes + den) / (2 * den)) ++ formatBytesUnit idx
  else
    let tenths := (20 * bytes + den) / (2 * den)
    toString (tenths / 10) ++ "." ++ toString (tenths % 10) ++ formatBytesUnit idx

/-- Recorded collaborator outcomes for one `transcribeWithWhisperCppFile`
call: the resolved model path, ffmpeg availability, the strict and lenient
transcode attempts, the whisper-cli run, and the text read back from the
output file (`''` when the read failed). -/
structure WhisperCppEnv where
  modelPath : Option String
  ffmpegAvailable : Bool
  strictTranscode : Except String Unit
  lenientTranscode : Except String Unit
  whisperRun : Except String Unit
  outputText : String
deriving DecidableEq, Repr

/-- Embedding of `transcribeWithWhisperCppFile`.  A lenient-transcode
throw propagates to the caller (`Except.error`); every other failure is
returned as a result carrying an error. -/
def transcribeWithWhisperCppFile (mediaType : String) (env : WhisperCppEnv) :
    Except String WhisperTranscriptionResult :=
  match env.modelPath with
  | none =>
    .ok ⟨none, none,
      some "whisper.cpp model not found (set SUMMARIZE_WHISPER_CPP_MODEL_PATH)", []⟩
  | some modelPath =>
    let canUseDirectly := isWhisperCppSupportedMediaType mediaType
    let canTranscode := !canUseDirectly && env.ffmpegAvailable
    if !canUseDirectly && !canTranscode then
      .ok ⟨none, some .whisperCpp,
        some ("whisper.cpp supports only flac/mp3/ogg/wav (mediaType=" ++ mediaType ++
          "); install ffmpeg to transcode"), []⟩
    else
      let transcodeStep : Except String (List String) :=
        if !canUseDirectly && canTranscode then
          match env.strictTranscode with
          | .ok _ => .ok ["whisper.cpp: transcoded media to MP3 via ffmpeg"]
          | .error e =>
            match env.lenientTranscode with
            | .ok _ =>
              .ok ["whisper.cpp: transcoded media to MP3 via ffmpeg (lenient)",
                   "whisper.cpp: strict transcode failed: " ++ wrapErrorMsg "ffmpeg" e]
            | .error e2 => .error e2
        else .ok []
      match transcodeStep with
      | .error e => .error e
      | .ok notes =>
        match env.whisperRun with
        | .error e =>
          .ok ⟨none, some .whisperCpp, some (wrapErrorMsg "whisper.cpp failed" e), notes⟩
        | .ok _ =>
          let text := jsTrim env.outputText
          if text.isEmpty then
            .ok ⟨none, some .whisperCpp, some "whisper.cpp returned empty text", notes⟩
          else
            .ok ⟨some text, some .whisperCpp, none,
              notes ++ ["whisper.cpp: model=" ++ resolveWhisperCppModelLabelFromPath modelPath]⟩

mutual
/-- Recorded collaborator outcomes for one `transcribeMediaWithWhisper`
(bytes entry point) call.  `chunkFfmpeg`/`retryFfmpeg` are the two
independent `isFfmpegAvailable()` probes; `chunkFileEnv` is the trace for
the chunked file call when taken; `openaiOutcome`, `retryOutcome` (the
combined transcode-and-retry try block) and `falOutcome` are the remote
call outcomes (`Except.error` = throw, `ok none`/`ok (some "")` = falsy
text). -/
inductive BytesEnv : Type where
  | mk (localReady : Bool) (cpp : WhisperCppEnv)
       (chunkFfmpeg : Bool) (chunkFileEnv : Option FileEnv)
       (openaiOutcome : Except String (Option String))
       (retryFfmpeg : Bool) (retryOutcome : Except String (Option String))
       (falOutcome : Except String (Option String)) : BytesEnv

/-- Recorded collaborator outcomes for one `transcribeMediaFileWithWhisper`
call: the stat'ed file size, ffmpeg availability for chunking, the trace
for the truncated-head call, the `runFfmpegSegment` outcome, the produced
segment directory entries (name, byte length, per-segment trace), and the
trace for the direct whole-file call. -/
inductive FileEnv : Type where
  | mk (localReady : Bool) (cpp : WhisperCppEnv) (fileSize : Nat)
       (chunkFfmpeg : Bool) (headEnv : BytesEnv)
       (segmentRun : Except String Unit)
       (segmentEntries : List (String × Nat × BytesEnv))
       (directEnv : BytesEnv) : FileEnv
end

def BytesEnv.localReady : BytesEnv → Bool
  | .mk l _ _ _ _ _ _ _ => l

def BytesEnv.cpp : BytesEnv → WhisperCppEnv
  | .mk _ c _ _ _ _ _ _ => c

def BytesEnv.chunkFfmpeg : BytesEnv → Bool
  | .mk _ _ f _ _ _ _ _ => f

def BytesEnv.chunkFileEnv : BytesEnv → Option FileEnv
  | .mk _ _ _ fe _ _ _ _ => fe

def BytesEnv.openaiOutcome : BytesEnv → Except String (Option String)
  | .mk _ _ _ _ o _ _ _ => o

def BytesEnv.retryFfmpeg : BytesEnv → Bool
  | .mk _ _ _ _ _ rf _ _ => rf

def BytesEnv.retryOutcome : BytesEnv → Except String (Option String)
  | .mk _ _ _ _ _ _ ro _ => ro

def BytesEnv.falOutcome : BytesEnv → Except String (Option String)
  | .mk _ _ _ _ _ _ _ fo => fo

def FileEnv.localReady : FileEnv → Bool
  | .mk l _ _ _ _ _ _ _ => l

def FileEnv.cpp : FileEnv → WhisperCppEnv
  | .mk _ c _ _ _ _ _ _ => c

def FileEnv.fileSize : FileEnv → Nat
  | .mk _ _ s _ _ _ _ _ => s

def FileEnv.chunkFfmpeg : FileEnv → Bool
  | .mk _ _ _ f _ _ _ _ => f

def FileEnv.headEnv : FileEnv → BytesEnv
  | .mk _ _ _ _ h _ _ _ => h

def FileEnv.segmentRun : FileEnv → Except String Unit
  | .mk _ _ _ _ _ s _ _ => s

def FileEnv.segmentEntries : FileEnv → List (String × Nat × BytesEnv)
  | .mk _ _ _ _ _ _ e _ => e

def FileEnv.directEnv : FileEnv → BytesEnv
  | .mk _ _ _ _ _ _ _ d => d

/-- Arguments of the bytes entry point (only the fields the control flow
reads; `bytes` is represented by its length). -/
structure BytesArgs where
  byteLength : Nat
  mediaType : String
  filename : Option String
  openaiApiKey : Option String
  falApiKey : Option String

/-- Arguments of the file entry point. -/
structure FileArgs where
  mediaType : String
  filename : Option String
  openaiApiKey : Option String
  falApiKey : Option String
  segmentSeconds : Nat

/-- The local whisper.cpp block shared by both entry points (whisper.ts
lines 290-327 and 498-530): when the local engine is ready, try it,
converting a throw into a failed result; return its result on text,
otherwise carry its notes (plus a fallback note on error) forward. -/
def whisperLocalPhase (mediaType : String) (localReady : Bool) (cpp : WhisperCppEnv) :
    Sum WhisperTranscriptionResult (List String) :=
  if localReady then
    let localRes : WhisperTranscriptionResult :=
      match transcribeWithWhisperCppFile mediaType cpp with
      | .ok r => r
      | .error e => ⟨none, some .whisperCpp, some (wrapErrorMsg "whisper.cpp failed" e), []⟩
    if truthy localRes.text then Sum.inl localRes
    else
      Sum.inr (localRes.notes ++
        (match localRes.error with
         | some e => ["whisper.cpp failed; falling back to remote Whisper: " ++ e]
         | none => []))
  else Sum.inr []

/-- The OpenAI attempt of the remote phase (whisper.ts lines 367-378):
`Sum.inl` is the success return, `Sum.inr` carries `openaiError`. -/
def whisperOpenaiAttempt (openaiApiKey : Option String)
    (outcome : Except String (Option String)) (notes0 : List String) :
    Sum WhisperTranscriptionResult (Option String) :=
  if truthy openaiApiKey then
    match outcome with
    | .ok t =>
      if truthy t then Sum.inl ⟨t, some .openai, none, notes0⟩
      else Sum.inr (some "OpenAI transcription returned empty text")
    | .error e => Sum.inr (some (wrapErrorMsg "OpenAI transcription failed" e))
  else Sum.inr none

/-- The format-rejection ffmpeg retry of the remote phase (whisper.ts
lines 380-411): `Sum.inl` is the retried-success return, `Sum.inr`
carries the updated `(openaiError, notes, mediaType)` state (the source
also reassigns `bytes`/`filename`, which no later step reads in a way a
claim observes). -/
def whisperRetryAttempt (args : BytesArgs) (env : BytesEnv)
    (openaiError0 : Option String) (notes0 : List String) :
    Sum WhisperTranscriptionResult (Option String × List String × String) :=
  match openaiError0 with
  | some err =>
    if truthy args.openaiApiKey && shouldRetryOpenAiViaFfmpeg err then
      if env.retryFfmpeg then
        let notes1 := notes0 ++
          ["OpenAI could not decode media; transcoding via ffmpeg and retrying"]
        match env.retryOutcome with
        | .ok t =>
          if truthy t then Sum.inl ⟨t, some .openai, none, notes1⟩
          else
            Sum.inr (some "OpenAI transcription returned empty text after ffmpeg transcode",
              notes1, "audio/mpeg")
        | .error e =>
          Sum.inr (some err,
            notes1 ++ ["ffmpeg transcode failed; cannot retry OpenAI decode error: " ++ e],
            args.mediaType)
      else
        Sum.inr (some err,
          notes0 ++ ["OpenAI could not decode media; install ffmpeg to enable transcoding retry"],
          args.mediaType)
    else Sum.inr (some err, notes0, args.mediaType)
  | none => Sum.inr (none, notes0, args.mediaType)

/-- The FAL fallback and terminal return of the remote phase (whisper.ts
lines 413-448). -/
def whisperFalPhase (args : BytesArgs) (falOutcome : Except String (Option String))
    (openaiError : Option String) (notes1 : List String) (mediaTypeNow : String) :
    WhisperTranscriptionResult :=
  let canUseFal := truthy args.falApiKey && startsWithStr (toLowerStr mediaTypeNow) "audio/"
  let notes2 := notes1 ++
    (if openaiError.isSome && canUseFal then
      ["OpenAI transcription failed; falling back to FAL: " ++ openaiError.getD ""]
     else []) ++
    (if truthy args.falApiKey && !canUseFal then
      ["Skipping FAL transcription: unsupported mediaType " ++ mediaTypeNow]
     else [])
  if truthy args.falApiKey && canUseFal then
    match falOutcome with
    | .ok t =>
      if truthy t then ⟨t, some .fal, none, notes2⟩
      else ⟨none, some .fal, some "FAL transcription returned empty text", notes2⟩
    | .error e => ⟨none, some .fal, some (wrapErrorMsg "FAL transcription failed" e), notes2⟩
  else
    ⟨none, (if truthy args.openaiApiKey then some .openai else none),
      some (openaiError.getD "No transcription providers available"), notes2⟩

/-- The remote phase of the bytes entry point (whisper.ts lines 367-448):
the OpenAI attempt, the format-rejection ffmpeg retry, the FAL fallback,
and the terminal return. -/
def whisperRemotePhase (args : BytesArgs) (notes0 : List String) (env : BytesEnv) :
    WhisperTranscriptionResult :=
  match whisperOpenaiAttempt args.openaiApiKey env.openaiOutcome notes0 with
  | Sum.inl r => r
  | Sum.inr openaiError0 =>
    match whisperRetryAttempt args env openaiError0 notes0 with
    | Sum.inl r => r
    | Sum.inr (openaiError, notes1, mediaTypeNow) =>
      whisperFalPhase args env.falOutcome openaiError notes1 mediaTypeNow

/-- The readdir filter and sort of the chunked path (whisper.ts lines
570-572): keep `part-*.mp3` entries, sorted by name (`localeCompare`
modelled as lexicographic order). -/
def filterSortSegments (entries : List (String × Nat × BytesEnv)) :
    List (String × Nat × BytesEnv) :=
  (entries.filter (fun e => startsWithStr e.1 "part-" && endsWithStr e.1 ".mp3")).insertionSort
    (fun a b => a.1.data ≤ b.1.data)

/-- The per-segment transcription arguments (whisper.ts lines 595-602):
the segment's bytes as `audio/mpeg` with the segment file's name. -/
def segBytesArgs (args : FileArgs) (e : String × Nat × BytesEnv) : BytesArgs :=
  { byteLength := e.2.1, mediaType := "audio/mpeg", filename := some e.1,
    openaiApiKey := args.openaiApiKey, falApiKey := args.falApiKey }

/-- The per-segment loop of the chunked path (whisper.ts lines 590-623),
parameterized by the per-segment transcription call: segments transcribed
in order with `audio/mpeg` media type and the segment's file name, a
failed segment (error and no text) aborts with that error discarding the
parts collected so far, transcribed text accumulates in `parts`, and the
loop ends joining the parts with blank lines. -/
def whisperSegmentLoop
    (transcribeSegment : BytesArgs → BytesEnv → Except String WhisperTranscriptionResult)
    (args : FileArgs) :
    List (String × Nat × BytesEnv) → List String → Option TranscriptionProvider →
    List String → Except String WhisperTranscriptionResult
  | [], parts, usedProvider, notes =>
    .ok ⟨some (String.intercalate "\n\n" parts), usedProvider, none, notes⟩
  | e :: rest, parts, usedProvider, notes =>
    match transcribeSegment (segBytesArgs args e) e.2.2 with
    | .error err => .error err
    | .ok r =>
      let usedProvider := if usedProvider.isNone && r.provider.isSome then r.provider
        else usedProvider
      if r.error.isSome && !truthy r.text then
        .ok ⟨none, usedProvider, r.error, notes⟩
      else
        let parts := parts ++ (match r.text with
          | some t => if !t.isEmpty then [t] else []
          | none => [])
        whisperSegmentLoop transcribeSegment args rest parts usedProvider notes

mutual
/-- Embedding of `transcribeMediaWithWhisper` (bytes entry point). -/
def transcribeMediaWithWhisper : Nat → BytesArgs → BytesEnv →
    Except String WhisperTranscriptionResult
  | 0, _, _ => .error "whisper model: recursion limit"
  | fuel + 1, args, env =>
    match whisperLocalPhase args.mediaType env.localReady env.cpp with
    | Sum.inl r => .ok r
    | Sum.inr notes =>
      if !truthy args.openaiApiKey && !truthy args.falApiKey then
        .ok ⟨none, none,
          some "No transcription providers available (install whisper-cpp or set OPENAI_API_KEY or FAL_KEY)",
          notes⟩
      else if truthy args.openaiApiKey && decide (args.byteLength > MAX_OPENAI_UPLOAD_BYTES) then
        if env.chunkFfmpeg then
          match env.chunkFileEnv with
          | some fe =>
            transcribeMediaFileWithWhisper fuel
              { mediaType := args.mediaType, filename := args.filename,
                openaiApiKey := args.openaiApiKey, falApiKey := args.falApiKey,
                segmentSeconds := DEFAULT_SEGMENT_SECONDS } fe
          | none => .error "whisper model: environment trace exhausted"
        else
          let notes := notes ++
            ["Media too large for Whisper upload (" ++ formatBytes args.byteLength ++
              "); transcribing first " ++ formatBytes MAX_OPENAI_UPLOAD_BYTES ++
              " only (install ffmpeg for full transcription)"]
          .ok (whisperRemotePhase { args with byteLength := MAX_OPENAI_UPLOAD_BYTES } notes env)
      else .ok (whisperRemotePhase args notes env)

/-- Embedding of `transcribeMediaFileWithWhisper` (file entry point). -/
def transcribeMediaFileWithWhisper : Nat → FileArgs → FileEnv →
    Except String WhisperTranscriptionResult
  | 0, _, _ => .error "whisper model: recursion limit"
  | fuel + 1, args, env =>
    match whisperLocalPhase args.mediaType env.localReady env.cpp with
    | Sum.inl r => .ok r
    | Sum.inr notes =>
      if !truthy args.openaiApiKey && !truthy args.falApiKey then
        .ok ⟨none, none,
          some "No transcription providers available (install whisper-cpp or set OPENAI_API_KEY or FAL_KEY)",
          notes⟩
      else if truthy args.openaiApiKey && decide (env.fileSize > MAX_OPENAI_UPLOAD_BYTES) then
        if !env.chunkFfmpeg then
          let notes := notes ++
            ["Media too large for Whisper upload (" ++ formatBytes env.fileSize ++
              "); install ffmpeg to enable chunked transcription"]
          match transcribeMediaWithWhisper fuel
            { byteLength := min MAX_OPENAI_UPLOAD_BYTES env.fileSize,
              mediaType := args.mediaType, filename := args.filename,
              openaiApiKey := args.openaiApiKey, falApiKey := args.falApiKey }
            env.headEnv with
          | .error e => .error e
          | .ok truncated => .ok { truncated with notes := notes ++ truncated.notes }
        else
          match env.segmentRun with
          | .error e => .error e
          | .ok _ =>
            let files := filterSortSegments env.segmentEntries
            if files.isEmpty then
              .ok ⟨none, none, some "ffmpeg produced no audio segments", notes⟩
            else
              let notes := notes ++
                ["ffmpeg chunked media into " ++ toString files.length ++ " parts (" ++
                  toString args.segmentSeconds ++ "s each)"]
              whisperSegmentLoop (transcribeMediaWithWhisper fuel) args files [] none notes
      else
        match transcribeMediaWithWhisper fuel
          { byteLength := env.fileSize, mediaType := args.mediaType,
            filename := args.filename, openaiApiKey := args.openaiApiKey,
            falApiKey := args.falApiKey } env.directEnv with
        | .error e => .error e
        | .ok r => .ok { r with notes := notes ++ r.notes }
end

/-- Sample whisper.cpp environment: no model, no ffmpeg. -/
def cppEnvOff : WhisperCppEnv := ⟨none, false, .ok (), .ok (), .ok (), ""⟩

/-- Sample bytes environment: local engine not ready, the OpenAI call
throws `boom`, no ffmpeg anywhere, FAL yields nothing. -/
def whisperEnvBoom : BytesEnv :=
  .mk false cppEnvOff false none (.error "boom") false (.ok none) (.ok none)

/-- Sample bytes arguments with no credentials at all. -/
def whisperArgsNoKeys : BytesArgs := ⟨100, "audio/mpeg", none, none, none⟩

/-- Sample bytes arguments with only an OpenAI key. -/
def whisperArgsOpenai : BytesArgs := ⟨100, "audio/mpeg", none, some "k", none⟩

/-- Sample file environment: an oversized file chunked into one segment
whose transcription fails. -/
def whisperFileEnvC9 : FileEnv :=
  .mk false cppEnvOff (MAX_OPENAI_UPLOAD_BYTES + 1) true whisperEnvBoom (.ok ())
    [("part-000.mp3", 5, whisperEnvBoom)] whisperEnvBoom

/-- Sample file arguments with only an OpenAI key. -/
def whisperFileArgsC9 : FileArgs := ⟨"audio/mpeg", none, some "k", none, DEFAULT_SEGMENT_SECONDS⟩

/-! ### Basic lemmas about the reconciler's text primitives -/

theorem crFree_norm (l : List Char) : crFree (normalizeStreamText l) = true := by
  induction l using normalizeStreamText.induct <;> simp_all [normalizeStreamText, crFree]

theorem crFree_norm_id {l : List Char} (h : crFree l = true) : normalizeStreamText l = l := by
  induction l using normalizeStreamText.induct <;> simp_all [normalizeStreamText, crFree]

theorem norm_idem (l : List Char) :
    normalizeStreamText (normalizeStreamText l) = normalizeStreamText l :=
  crFree_norm_id (crFree_norm l)

theorem norm_ne_nil {l : List Char} (h : l ≠ []) : normalizeStreamText l ≠ [] := by
  induction l using normalizeStreamText.induct <;> simp_all [normalizeStreamText]

theorem crFree_append (a b : List Char) : crFree (a ++ b) = (crFree a && crFree b) := by
  simp [crFree, List.all_append]

theorem crFree_drop {l : List Char} (n : Nat) (h : crFree l = true) :
    crFree (l.drop n) = true := by
  simp only [crFree, List.all_eq_true] at *
  exact fun c hc => h c (List.drop_subset n l hc)

theorem startsWithL_append (p t : List Char) : startsWithL (p ++ t) p = true := by
  induction p <;> simp_all [startsWithL]

theorem startsWithL_nil_right (s : List Char) : startsWithL s [] = true := by
  cases s <;> rfl

theorem startsWithL_iff_take {s p : List Char} :
    startsWithL s p = true ↔ s.take p.length = p := by
  induction p generalizing s with
  | nil => simp [startsWithL_nil_right]
  | cons b bs ih =>
    cases s with
    | nil => simp [startsWithL]
    | cons a as => simp [startsWithL, ih]

theorem startsWithL_drop {s p : List Char} (h : startsWithL s p = true) :
    s = p ++ s.drop p.length := by
  conv_lhs => rw [← List.take_append_drop p.length s]
  rw [startsWithL_iff_take.mp h]

/-- Specification of the overlap-search loop: a hit is positive, bounded by
the scan bound, and is an actual suffix-of-`prev` / leading part of `nc`. -/
theorem findOverlap_some {prev nc : List Char} {n l : Nat}
    (h : findOverlap prev nc n = some l) :
    1 ≤ l ∧ l ≤ n ∧ takeRight l prev = nc.take l := by
  induction n with
  | zero => simp [findOverlap] at h
  | succ m ih =>
    rw [findOverlap] at h
    split at h
    · rename_i heq
      cases h
      exact ⟨Nat.succ_le_succ (Nat.zero_le m), Nat.le_refl _, heq⟩
    · obtain ⟨h1, h2, h3⟩ := ih h
      exact ⟨h1, Nat.le_succ_of_le h2, h3⟩

theorem mergeCore_crFree (prev nc : List Char) (hp : crFree prev = true)
    (hc : crFree nc = true) :
    crFree (mergeCore prev nc).1 = true ∧ crFree (mergeCore prev nc).2 = true := by
  simp only [mergeCore]
  split
  · exact ⟨hc, hc⟩
  · split
    · exact ⟨hc, crFree_drop _ hc⟩
    · split
      · exact ⟨hp, rfl⟩
      · split
        · exact ⟨hc, crFree_drop _ hc⟩
        · split
          · constructor
            · rw [crFree_append, hp, crFree_drop _ hc]; rfl
            · exact crFree_drop _ hc
          · constructor
            · rw [crFree_append, hp, hc]; rfl
            · exact hc

/-! ### Claim C1 -/

/-- Claim C1, counterexample: for `previous = ""` and `suffix = "\r"` the
merged result is the normalized `"\n"`, not `previous + suffix` and not
`suffix` — the claim fails for inputs containing carriage returns. -/
theorem claim_C1_counterexample :
    mergeStreamingChunk [] (([] : List Char) ++ ['\r']) ≠
      (([] : List Char) ++ ['\r'], ['\r']) := by
  decide

/-- Claim C1 (amended): for every pair of carriage-return-free strings
`(previous, suffix)`, `mergeStreamingChunk previous (previous ++ suffix)`
returns `next = previous ++ suffix` and `appended = suffix`. -/
theorem claim_C1 (previous suffix : List Char)
    (hp : crFree previous = true) (hs : crFree suffix = true) :
    mergeStreamingChunk previous (previous ++ suffix) = (previous ++ suffix, suffix) := by
  by_cases hc : previous ++ suffix = []
  · obtain ⟨h1, h2⟩ := List.append_eq_nil.mp hc
    subst h1; subst h2; rfl
  · have hcf : crFree (previous ++ suffix) = true := by
      rw [crFree_append, hp, hs]; rfl
    rw [mergeStreamingChunk, if_neg hc, crFree_norm_id hp, crFree_norm_id hcf]
    by_cases hpnil : previous = []
    · subst hpnil; simp [mergeCore]
    · rw [mergeCore, if_neg hpnil]
      simp [startsWithL_append, List.drop_left]

/-- Claim C1, witness at `previous = "a"`, `suffix = "b"`. -/
theorem claim_C1_witness : crFree ['a'] = true ∧ crFree ['b'] = true ∧
    mergeStreamingChunk ['a'] ['a', 'b'] = (['a', 'b'], ['b']) :=
  ⟨by decide, by decide, claim_C1 ['a'] ['b'] (by decide) (by decide)⟩

/-! ### Claim C2 -/

/-- Claim C2, counterexample: for `previous = ""` and `chunk = "a\r\nb"`
the returned `next` is the normalized `"a\nb"`, not the original chunk —
normalization is not restricted to comparison, it reaches the returned
string. -/
theorem claim_C2_counterexample :
    (mergeStreamingChunk [] ['a', '\r', '\n', 'b']).1 ≠ ['a', '\r', '\n', 'b'] ∧
    (mergeStreamingChunk [] ['a', '\r', '\n', 'b']).1 =
      normalizeStreamText ['a', '\r', '\n', 'b'] := by
  decide

/-- Claim C2 (amended): for every nonempty chunk, `mergeStreamingChunk`
operates on the line-ending-normalized forms of both inputs and its result
is built from those normalized strings: the call equals the call on the
normalized inputs, and both returned strings are carriage-return free
(original `\r`/`\r\n` content is not preserved).  Only the empty-chunk
no-op returns `previous` verbatim. -/
theorem claim_C2 (previous chunk : List Char) (h : chunk ≠ []) :
    mergeStreamingChunk previous chunk =
      mergeStreamingChunk (normalizeStreamText previous) (normalizeStreamText chunk) ∧
    crFree (mergeStreamingChunk previous chunk).1 = true ∧
    crFree (mergeStreamingChunk previous chunk).2 = true := by
  have hnn := norm_ne_nil h
  refine ⟨?_, ?_⟩
  · rw [mergeStreamingChunk, mergeStreamingChunk, if_neg h, if_neg hnn, norm_idem, norm_idem]
  · rw [mergeStreamingChunk, if_neg h]
    exact mergeCore_crFree _ _ (crFree_norm _) (crFree_norm _)

/-- Claim C2, witness at `previous = "x\r"`, `chunk = "a\r\nb"`. -/
theorem claim_C2_witness :
    (['a', '\r', '\n', 'b'] : List Char) ≠ [] ∧
    mergeStreamingChunk ['x', '\r'] ['a', '\r', '\n', 'b'] =
      mergeStreamingChunk (normalizeStreamText ['x', '\r'])
        (normalizeStreamText ['a', '\r', '\n', 'b']) ∧
    crFree (mergeStreamingChunk ['x', '\r'] ['a', '\r', '\n', 'b']).1 = true ∧
    crFree (mergeStreamingChunk ['x', '\r'] ['a', '\r', '\n', 'b']).2 = true :=
  ⟨by decide, claim_C2 ['x', '\r'] ['a', '\r', '\n', 'b'] (by decide)⟩

/-! ### Claim C5 -/

/-- Claim C5, counterexample: with `previous = "aaaaaaaaabc"` (length 11)
and `chunk = "aaaaaaaaaZZ"` (length 11, common prefix 9) the code takes
the cumulative-resend branch (it compares against
`Math.floor(0.9 * 11) = 9`), although 9 is less than 90% of 11 — the
claim's "at least 90% of previous's length" threshold does not hold. -/
theorem claim_C5_counterexample :
    (['a','a','a','a','a','a','a','a','a','b','c'] : List Char).length ≤
      (['a','a','a','a','a','a','a','a','a','Z','Z'] : List Char).length ∧
    startsWithL ['a','a','a','a','a','a','a','a','a','Z','Z']
      ['a','a','a','a','a','a','a','a','a','b','c'] = false ∧
    startsWithL ['a','a','a','a','a','a','a','a','a','b','c']
      ['a','a','a','a','a','a','a','a','a','Z','Z'] = false ∧
    mergeStreamingChunk ['a','a','a','a','a','a','a','a','a','b','c']
        ['a','a','a','a','a','a','a','a','a','Z','Z'] =
      (['a','a','a','a','a','a','a','a','a','Z','Z'],
        (['a','a','a','a','a','a','a','a','a','Z','Z'] : List Char).drop
          (commonPrefixLength ['a','a','a','a','a','a','a','a','a','b','c']
            ['a','a','a','a','a','a','a','a','a','Z','Z'])) ∧
    ¬ (9 * (['a','a','a','a','a','a','a','a','a','b','c'] : List Char).length ≤
        10 * commonPrefixLength ['a','a','a','a','a','a','a','a','a','b','c']
          ['a','a','a','a','a','a','a','a','a','Z','Z']) := by
  decide

/-- Claim C5 (amended): for carriage-return-free inputs where the chunk is
at least as long as the previous text and neither is a prefix of the
other, `mergeStreamingChunk` returns `next = chunk` and `appended = chunk`
past the common prefix (scanned up to 4096 characters) exactly when that
common prefix length is positive and at least the larger of
`previous.length - 64` and `⌊previous.length * 0.9⌋` (floor, as the code
computes it — not exact 90%). -/
theorem claim_C5 (previous chunk : List Char)
    (hp : crFree previous = true) (hc : crFree chunk = true)
    (hlen : previous.length ≤ chunk.length)
    (h1 : startsWithL chunk previous = false)
    (h2 : startsWithL previous chunk = false) :
    (mergeStreamingChunk previous chunk =
      (chunk, chunk.drop (commonPrefixLength previous chunk))) ↔
    (0 < commonPrefixLength previous chunk ∧
      max (previous.length - 64) (9 * previous.length / 10) ≤
        commonPrefixLength previous chunk) := by
  have hpne : previous ≠ [] := by
    intro h; rw [h, startsWithL_nil_right] at h1; cases h1
  have hcne : chunk ≠ [] := by
    intro h; rw [h, startsWithL_nil_right] at h2; cases h2
  rw [mergeStreamingChunk, if_neg hcne, crFree_norm_id hp, crFree_norm_id hc]
  simp only [mergeCore, if_neg hpne, h1, h2, Bool.false_eq_true, if_false]
  by_cases hgate : 0 < commonPrefixLength previous chunk ∧
      max (previous.length - 64) (9 * previous.length / 10) ≤ commonPrefixLength previous chunk
  · have hg : (decide (chunk.length ≥ previous.length) &&
        (decide (0 < commonPrefixLength previous chunk) &&
          decide (commonPrefixLength previous chunk ≥
            max (previous.length - 64) (9 * previous.length / 10)))) = true := by
      simp [hlen, hgate.1, hgate.2]
    rw [if_pos hg]
    simp [hgate]
  · have hg : (decide (chunk.length ≥ previous.length) &&
        (decide (0 < commonPrefixLength previous chunk) &&
          decide (commonPrefixLength previous chunk ≥
            max (previous.length - 64) (9 * previous.length / 10)))) = false := by
      simp only [Bool.and_eq_false_iff, decide_eq_false_iff_not]
      by_cases h01 : 0 < commonPrefixLength previous chunk
      · right; right; intro hmax; exact hgate ⟨h01, hmax⟩
      · right; left; exact h01
    have hgf : ¬((decide (chunk.length ≥ previous.length) &&
        (decide (0 < commonPrefixLength previous chunk) &&
          decide (commonPrefixLength previous chunk ≥
            max (previous.length - 64) (9 * previous.length / 10)))) = true) := by
      rw [hg]; exact Bool.false_ne_true
    rw [if_neg hgf]
    rcases hov : findOverlap previous chunk (min (min previous.length chunk.length) 2048)
      with _ | l
    · simp only [hgate, iff_false]
      intro heq
      have := congrArg Prod.fst heq
      simp only at this
      have hlen0 := congrArg List.length this
      simp [List.length_append] at hlen0
      exact hpne hlen0
    · simp only [hgate, iff_false]
      intro heq
      obtain ⟨hge1, hle, htr⟩ := findOverlap_some hov
      have hfst := congrArg Prod.fst heq
      simp only at hfst
      have hlp : l ≤ previous.length :=
        le_trans hle (le_trans (min_le_left _ _) (min_le_left _ _))
      have hlc : l ≤ chunk.length :=
        le_trans hle (le_trans (min_le_left _ _) (min_le_right _ _))
      have hlen1 := congrArg List.length hfst
      simp [List.length_append, List.length_drop] at hlen1
      have hl_eq : l = previous.length := by omega
      rw [hl_eq] at htr
      have hqt : takeRight previous.length previous = previous := by
        simp [takeRight]
      rw [hqt] at htr
      have : startsWithL chunk previous = true := startsWithL_iff_take.mpr htr.symm
      rw [h1] at this; cases this

/-- Claim C5, witness at `previous = "aaaaaaaaab"`, `chunk = "aaaaaaaaacX"`
(common prefix 9, threshold `max (10-64) ⌊10*0.9⌋ = 9`). -/
theorem claim_C5_witness :
    mergeStreamingChunk ['a','a','a','a','a','a','a','a','a','b']
        ['a','a','a','a','a','a','a','a','a','c','X'] =
      (['a','a','a','a','a','a','a','a','a','c','X'],
        (['a','a','a','a','a','a','a','a','a','c','X'] : List Char).drop
          (commonPrefixLength ['a','a','a','a','a','a','a','a','a','b']
            ['a','a','a','a','a','a','a','a','a','c','X'])) :=
  (claim_C5 ['a','a','a','a','a','a','a','a','a','b']
    ['a','a','a','a','a','a','a','a','a','c','X']
    (by decide) (by decide) (by decide) (by decide) (by decide)).mpr (by decide)

/-! ### Claim C6 -/

/-- Claim C6, counterexample: the legitimate pure-delta stream
`["ab", "b"]` folds to `"ab"` — the overlap-stitch heuristic drops the
second delta — while direct concatenation gives `"abb"`. -/
theorem claim_C6_counterexample :
    foldMerge [] [['a', 'b'], ['b']] ≠ ([['a', 'b'], ['b']] : List (List Char)).flatten := by
  decide

theorem merge_pureDelta (acc d : List Char) (ha : crFree acc = true) (hd : crFree d = true)
    (hg : goodDelta acc d = true) : (mergeStreamingChunk acc d).1 = acc ++ d := by
  by_cases hdn : d = []
  · subst hdn; simp [mergeStreamingChunk]
  · rw [mergeStreamingChunk, if_neg hdn, crFree_norm_id ha, crFree_norm_id hd]
    by_cases han : acc = []
    · subst han; simp [mergeCore]
    · obtain ⟨a, as, rfl⟩ := List.exists_cons_of_ne_nil han
      obtain ⟨b, bs, rfl⟩ := List.exists_cons_of_ne_nil hdn
      simp only [goodDelta, List.isEmpty_cons, Bool.false_or, Bool.and_eq_true,
        bne_iff_ne, ne_eq, List.head?_cons, Option.some.injEq, beq_iff_eq] at hg
      obtain ⟨hne, hov⟩ := hg
      have hsw1 : startsWithL (b :: bs) (a :: as) = false := by
        simp only [startsWithL]
        simp only [Bool.and_eq_false_iff, decide_eq_false_iff_not]
        left; exact fun h => hne h.symm
      have hsw2 : startsWithL (a :: as) (b :: bs) = false := by
        simp only [startsWithL]
        simp only [Bool.and_eq_false_iff, decide_eq_false_iff_not]
        left; exact hne
      have hk : commonPrefixLength (a :: as) (b :: bs) = 0 := by
        simp [commonPrefixLength, cplFuel, hne]
      simp only [mergeCore, if_neg (List.cons_ne_nil a as), hsw1, hsw2,
        Bool.false_eq_true, if_false, hk, hov]
      simp

/-- Claim C6 (amended): for every sequence of carriage-return-free delta
chunks on which the merge heuristics cannot misfire — at every step either
side is empty, or the accumulated text and the incoming delta start with
different characters and share no suffix-prefix overlap within the 2048
character scan bound (`goodSteps`) — folding `mergeStreamingChunk` from
the empty string reconstructs the direct concatenation of the deltas. -/
theorem claim_C6 (ds : List (List Char)) (acc : List Char)
    (ha : crFree acc = true) (hds : ds.all crFree = true)
    (hg : goodSteps acc ds = true) : foldMerge acc ds = acc ++ ds.flatten := by
  induction ds generalizing acc with
  | nil => simp [foldMerge]
  | cons d rest ih =>
    simp only [List.all_cons, Bool.and_eq_true] at hds
    simp only [goodSteps, Bool.and_eq_true] at hg
    have hstep := merge_pureDelta acc d ha hds.1 hg.1
    have hacc' : crFree (acc ++ d) = true := by rw [crFree_append, ha, hds.1]; rfl
    have hrest := ih (acc ++ d) hacc' hds.2 hg.2
    simp only [foldMerge, List.foldl_cons] at hrest ⊢
    rw [hstep, hrest, List.flatten_cons, List.append_assoc]

/-- Claim C6, witness: the spec's example `["Hello ", "world", "!"]` folds
from the empty string to `"Hello world!"`. -/
theorem claim_C6_witness :
    goodSteps [] ["Hello ".toList, "world".toList, "!".toList] = true ∧
    foldMerge [] ["Hello ".toList, "world".toList, "!".toList] = "Hello world!".toList := by
  refine ⟨by decide, ?_⟩
  have h := claim_C6 ["Hello ".toList, "world".toList, "!".toList] []
    (by decide) (by decide) (by decide)
  simpa using h

/-! ### Helper lemmas for the YouTube resolver -/

theorem ytDlpPhase_mem (canRunYtDlp : Bool) (env : YoutubeEnv)
    (attempted : List TranscriptSource) (notes : List String)
    (hmem : TranscriptSource.apify ∈ attempted) :
    ∃ r, ytDlpPhase .auto canRunYtDlp env attempted notes = .ok r ∧
      TranscriptSource.apify ∈ r.attemptedProviders := by
  have hmode : (YoutubeTranscriptMode.auto == YoutubeTranscriptMode.ytDlp) = false := rfl
  have hauto : (YoutubeTranscriptMode.auto == YoutubeTranscriptMode.auto) = true := rfl
  simp only [ytDlpPhase, hmode, hauto, Bool.false_and, Bool.false_or, Bool.true_and,
    Bool.false_eq_true, if_false]
  split
  · split
    · rename_i t _
      split
      · exact ⟨_, rfl, by simp [hmem]⟩
      · exact ⟨_, rfl, by simp [ytUnavailableResult, hmem]⟩
    · exact ⟨_, rfl, by simp [ytUnavailableResult, hmem]⟩
  · exact ⟨_, rfl, by simp [ytUnavailableResult, hmem]⟩

theorem ytWebPhase_noText (env : YoutubeEnv)
    (hyi : truthy env.youtubeiTranscript = false)
    (hcap : truthy env.captionsTranscript = false) :
    ∃ att, ytWebPhase .auto env = Sum.inr att := by
  rw [ytWebPhase]
  simp only [show (YoutubeTranscriptMode.auto == YoutubeTranscriptMode.auto) = true from rfl,
    Bool.true_or, if_true]
  rcases hcfg : env.youtubeiConfig with _ | cfg <;>
    rcases hyt : env.youtubeiTranscript with _ | t <;>
      rcases hct : env.captionsTranscript with _ | u <;>
        simp only [hyt] at hyi <;> simp only [hct] at hcap <;>
          simp_all [truthy]

theorem ytApifyPhase_auto (env : YoutubeEnv) (attempted : List TranscriptSource) :
    (∃ r, ytApifyPhase .auto env attempted = Sum.inl r ∧
      TranscriptSource.apify ∈ r.attemptedProviders) ∨
    ytApifyPhase .auto env attempted =
      Sum.inr (attempted ++ [TranscriptSource.apify]) := by
  rw [ytApifyPhase]
  simp only [show (YoutubeTranscriptMode.auto == YoutubeTranscriptMode.auto) = true from rfl,
    Bool.true_or, if_true]
  rcases henv : env.apifyTranscript with _ | w
  · right; rfl
  · cases hw : w.isEmpty
    · left
      simp only [hw, Bool.not_false, if_true]
      exact ⟨_, rfl, by simp⟩
    · right
      simp only [hw, Bool.not_true, Bool.false_eq_true, if_false]

/-! ### Claim C3 -/

/-- Claim C3, counterexample: in `auto` mode with no apify token
configured and no provider yielding text, `apify` is nevertheless
attempted and recorded in `attemptedProviders` — the attempt is gated only
on the mode, not on the token. -/
theorem claim_C3_counterexample :
    optsC3.apifyApiToken = none ∧
    fetchTranscript ctxC3 optsC3 envC3 = .ok
      { text := none, source := some .unavailable,
        metadata := [("provider", some "youtube"), ("reason", some "no_transcript_available")],
        attemptedProviders := [.captionTracks, .apify, .unavailable],
        notes := none } ∧
    TranscriptSource.apify ∈
      ([.captionTracks, .apify, .unavailable] : List TranscriptSource) := by
  refine ⟨rfl, ?_, by decide⟩
  decide

/-- Claim C3 (amended): in `auto` mode, once the html is present, a video
id is derivable and neither `youtubei` nor `captionTracks` yields text,
the apify provider is attempted and recorded in `attemptedProviders`
unconditionally — whether or not an apify token is configured.  (Token
gating applies to the `yt-dlp` step, not to apify.) -/
theorem claim_C3 (ctx : ProviderContext) (opts : ProviderFetchOptions)
    (env : YoutubeEnv)
    (hm : opts.youtubeTranscriptMode = .auto)
    (hh : truthy ctx.html = true)
    (hid : effectiveVideoId ctx env ≠ none)
    (hyi : truthy env.youtubeiTranscript = false)
    (hcap : truthy env.captionsTranscript = false) :
    ∃ r, fetchTranscript ctx opts env = .ok r ∧
      TranscriptSource.apify ∈ r.attemptedProviders := by
  obtain ⟨v, hv⟩ := Option.ne_none_iff_exists'.mp hid
  obtain ⟨att, hweb⟩ := ytWebPhase_noText env hyi hcap
  rw [fetchTranscript]
  simp only [hm, hv, hh, hweb]
  simp only [show (YoutubeTranscriptMode.auto == YoutubeTranscriptMode.ytDlp) = false from rfl,
    Bool.false_and, Bool.not_true, Bool.false_eq_true, if_false]
  rcases ytApifyPhase_auto env att with ⟨r, hap, hmem⟩ | hap
  · rw [hap]
    exact ⟨r, rfl, hmem⟩
  · rw [hap]
    exact ytDlpPhase_mem _ env _ [] (by simp)

/-- Claim C3, witness at the sample no-token `auto`-mode run. -/
theorem claim_C3_witness :
    ∃ r, fetchTranscript ctxC3 optsC3 envC3 = .ok r ∧
      TranscriptSource.apify ∈ r.attemptedProviders :=
  claim_C3 ctxC3 optsC3 envC3 rfl (by decide) (by decide) (by decide) (by decide)

/-! ### Claim C4 -/

/-- Claim C4 (confirmed): in explicit `yt-dlp` mode, a missing binary path
or missing transcription credentials produce a descriptive configuration
error, and the outcome is identical under every environment of provider
outcomes — no provider is consulted. -/
theorem claim_C4 (ctx : ProviderContext) (opts : ProviderFetchOptions)
    (env env' : YoutubeEnv)
    (hm : opts.youtubeTranscriptMode = .ytDlp)
    (h : truthy opts.ytDlpPath = false ∨
      (truthy opts.openaiApiKey = false ∧ truthy opts.falApiKey = false)) :
    (fetchTranscript ctx opts env = .error "Missing YT_DLP_PATH for --youtube yt-dlp" ∨
     fetchTranscript ctx opts env =
       .error "Missing OPENAI_API_KEY or FAL_KEY for --youtube yt-dlp") ∧
    fetchTranscript ctx opts env = fetchTranscript ctx opts env' := by
  rcases h with h | ⟨h1, h2⟩
  · refine ⟨Or.inl ?_, ?_⟩
    · rw [fetchTranscript]; simp [hm, h]
    · rw [fetchTranscript, fetchTranscript]; simp [hm, h]
  · by_cases hp : truthy opts.ytDlpPath = true
    · refine ⟨Or.inr ?_, ?_⟩
      · rw [fetchTranscript]; simp [hm, hp, h1, h2]
      · rw [fetchTranscript, fetchTranscript]; simp [hm, hp, h1, h2]
    · replace hp : truthy opts.ytDlpPath = false := by
        cases hq : truthy opts.ytDlpPath
        · rfl
        · exact absurd hq hp
      refine ⟨Or.inl ?_, ?_⟩
      · rw [fetchTranscript]; simp [hm, hp]
      · rw [fetchTranscript, fetchTranscript]; simp [hm, hp]

/-- Claim C4, witness: `yt-dlp` mode with nothing configured errors
identically under the all-failing and all-succeeding environments. -/
theorem claim_C4_witness :
    optsC4.youtubeTranscriptMode = .ytDlp ∧
    (fetchTranscript ctxC3 optsC4 envC3 = .error "Missing YT_DLP_PATH for --youtube yt-dlp" ∨
     fetchTranscript ctxC3 optsC4 envC3 =
       .error "Missing OPENAI_API_KEY or FAL_KEY for --youtube yt-dlp") ∧
    fetchTranscript ctxC3 optsC4 envC3 = fetchTranscript ctxC3 optsC4 envC4b :=
  ⟨rfl, (claim_C4 ctxC3 optsC4 envC3 envC4b rfl (Or.inl rfl)).1,
    (claim_C4 ctxC3 optsC4 envC3 envC4b rfl (Or.inl rfl)).2⟩

/-! ### Claim C10 -/

/-- Claim C10 (confirmed): whenever the `yt-dlp` configuration checks pass
and the context's html is null, the resolver returns
`{ text: null, source: null, attemptedProviders: [] }` without attempting
any provider, for every environment — including ones where a video id is
derivable from the url. -/
theorem claim_C10 (ctx : ProviderContext) (opts : ProviderFetchOptions)
    (env : YoutubeEnv)
    (hcfg : opts.youtubeTranscriptMode = .ytDlp →
      truthy opts.ytDlpPath = true ∧
        (truthy opts.openaiApiKey = true ∨ truthy opts.falApiKey = true))
    (hh : ctx.html = none) :
    fetchTranscript ctx opts env = .ok ytEmptyResult := by
  rw [fetchTranscript]
  have hhh : truthy ctx.html = false := by rw [hh]; rfl
  by_cases hm : opts.youtubeTranscriptMode = .ytDlp
  · obtain ⟨hp, hc⟩ := hcfg hm
    rcases hc with hc | hc <;> simp [hm, hp, hc, hhh]
  · have : (opts.youtubeTranscriptMode == YoutubeTranscriptMode.ytDlp) = false := by
      cases hq : opts.youtubeTranscriptMode == YoutubeTranscriptMode.ytDlp
      · rfl
      · exact absurd (eq_of_beq hq) hm
    simp [this, hhh]

/-- Claim C10, witness: null html in `auto` mode short-circuits although
the environment derives video id `"abc"` from the url. -/
theorem claim_C10_witness :
    ctxC10.html = none ∧ envC3.videoIdFromUrl = some "abc" ∧
    fetchTranscript ctxC10 optsC3 envC3 = .ok ytEmptyResult :=
  ⟨rfl, rfl, claim_C10 ctxC10 optsC3 envC3 (fun h => nomatch h) rfl⟩

/-! ### Helper lemmas for the whisper engine -/

theorem cppFile_exclusive (mediaType : String) (env : WhisperCppEnv)
    (r : WhisperTranscriptionResult)
    (h : transcribeWithWhisperCppFile mediaType env = .ok r) :
    r.text = none ∨ r.error = none := by
  rw [transcribeWithWhisperCppFile] at h
  dsimp only at h
  repeat' split at h
  all_goals first
    | (cases h; left; rfl)
    | (cases h; right; rfl)
    | cases h

theorem whisperLocalPhase_inl (mediaType : String) (localReady : Bool)
    (cpp : WhisperCppEnv) (r : WhisperTranscriptionResult)
    (h : whisperLocalPhase mediaType localReady cpp = Sum.inl r) :
    r.error = none ∧ truthy r.text = true := by
  rw [whisperLocalPhase] at h
  dsimp only at h
  split at h
  · rcases hc : transcribeWithWhisperCppFile mediaType cpp with e | lr
    all_goals rw [hc] at h
    · simp [truthy] at h
    · split at h
      · rename_i ht
        cases h
        refine ⟨?_, ht⟩
        rcases cppFile_exclusive mediaType cpp lr hc with h1 | h1
        · rw [h1] at ht; cases ht
        · exact h1
      · cases h
  · cases h

theorem whisperOpenaiAttempt_inl (key : Option String)
    (outcome : Except String (Option String)) (notes0 : List String)
    (r : WhisperTranscriptionResult)
    (h : whisperOpenaiAttempt key outcome notes0 = Sum.inl r) :
    r.error = none := by
  rw [whisperOpenaiAttempt.eq_def] at h
  repeat' split at h
  all_goals first | (cases h; rfl) | cases h

theorem whisperRetryAttempt_inl (args : BytesArgs) (env : BytesEnv)
    (openaiError0 : Option String) (notes0 : List String)
    (r : WhisperTranscriptionResult)
    (h : whisperRetryAttempt args env openaiError0 notes0 = Sum.inl r) :
    r.error = none := by
  rw [whisperRetryAttempt.eq_def] at h
  dsimp only at h
  repeat' split at h
  all_goals first | (cases h; rfl) | cases h

theorem whisperFalPhase_exclusive (args : BytesArgs)
    (falOutcome : Except String (Option String)) (openaiError : Option String)
    (notes1 : List String) (mediaTypeNow : String) :
    (whisperFalPhase args falOutcome openaiError notes1 mediaTypeNow).text = none ∨
    (whisperFalPhase args falOutcome openaiError notes1 mediaTypeNow).error = none := by
  rw [whisperFalPhase.eq_def]
  dsimp only
  repeat' split
  all_goals first | (left; rfl) | (right; rfl)

theorem whisperRemotePhase_exclusive (args : BytesArgs) (notes0 : List String)
    (env : BytesEnv) :
    (whisperRemotePhase args notes0 env).text = none ∨
    (whisperRemotePhase args notes0 env).error = none := by
  rw [whisperRemotePhase]
  rcases ho : whisperOpenaiAttempt args.openaiApiKey env.openaiOutcome notes0 with r | oe
  · dsimp only
    right; exact whisperOpenaiAttempt_inl _ _ _ _ ho
  · dsimp only
    rcases hr : whisperRetryAttempt args env oe notes0 with r | st
    · dsimp only
      right; exact whisperRetryAttempt_inl _ _ _ _ _ hr
    · rcases st with ⟨a, b, c⟩
      dsimp only
      exact whisperFalPhase_exclusive args env.falOutcome a b c

theorem whisperSegmentLoop_exclusive
    (tw : BytesArgs → BytesEnv → Except String WhisperTranscriptionResult)
    (args : FileArgs) :
    ∀ (entries : List (String × Nat × BytesEnv)) (parts : List String)
      (up : Option TranscriptionProvider) (notes : List String)
      (r : WhisperTranscriptionResult),
    whisperSegmentLoop tw args entries parts up notes = .ok r →
      r.text = none ∨ r.error = none := by
  intro entries
  induction entries with
  | nil =>
    intro parts up notes r h
    rw [whisperSegmentLoop] at h
    cases h; right; rfl
  | cons e rest ih =>
    intro parts up notes r h
    rw [whisperSegmentLoop] at h
    split at h
    · cases h
    · dsimp only at h
      split at h
      · cases h; left; rfl
      · exact ih _ _ _ _ h

theorem whisper_exclusive_all (fuel : Nat) :
    (∀ args env r, transcribeMediaWithWhisper fuel args env = .ok r →
      r.text = none ∨ r.error = none) ∧
    (∀ args env r, transcribeMediaFileWithWhisper fuel args env = .ok r →
      r.text = none ∨ r.error = none) := by
  induction fuel with
  | zero =>
    refine ⟨fun args env r h => ?_, fun args env r h => ?_⟩ <;>
      simp [transcribeMediaWithWhisper, transcribeMediaFileWithWhisper] at h
  | succ n ih =>
    obtain ⟨ihW, ihF⟩ := ih
    refine ⟨?_, ?_⟩
    · intro args env r h
      rw [transcribeMediaWithWhisper] at h
      rcases hl : whisperLocalPhase args.mediaType env.localReady env.cpp with lr | notes
      all_goals rw [hl] at h
      all_goals dsimp only at h
      · cases h
        right; exact (whisperLocalPhase_inl _ _ _ _ hl).1
      · split at h
        · cases h; left; rfl
        · split at h
          · split at h
            · split at h
              · exact ihF _ _ _ h
              · cases h
            · cases h
              exact whisperRemotePhase_exclusive _ _ _
          · cases h
            exact whisperRemotePhase_exclusive _ _ _
    · intro args env r h
      rw [transcribeMediaFileWithWhisper] at h
      rcases hl : whisperLocalPhase args.mediaType env.localReady env.cpp with lr | notes
      all_goals rw [hl] at h
      all_goals dsimp only at h
      · cases h
        right; exact (whisperLocalPhase_inl _ _ _ _ hl).1
      · split at h
        · cases h; left; rfl
        · split at h
          · split at h
            · split at h
              · cases h
              · rename_i tr htr
                cases h
                rcases ihW _ _ _ htr with h1 | h1
                · left; exact h1
                · right; exact h1
            · split at h
              · cases h
              · split at h
                · cases h; left; rfl
                · exact whisperSegmentLoop_exclusive _ _ _ _ _ _ _ h
          · split at h
            · cases h
            · rename_i tr htr
              cases h
              rcases ihW _ _ _ htr with h1 | h1
              · left; exact h1
              · right; exact h1

/-! ### Claim C7 -/

/-- Claim C7 (confirmed): with the local whisper.cpp engine not ready and
neither an OpenAI nor a FAL key configured, `transcribeMediaWithWhisper`
returns `text = null`, `provider = null`, and the descriptive
configuration error naming all three missing providers, with no notes. -/
theorem claim_C7 (fuel : Nat) (args : BytesArgs) (env : BytesEnv)
    (hl : env.localReady = false)
    (ho : truthy args.openaiApiKey = false) (hf : truthy args.falApiKey = false) :
    transcribeMediaWithWhisper (fuel + 1) args env = .ok
      ⟨none, none,
        some "No transcription providers available (install whisper-cpp or set OPENAI_API_KEY or FAL_KEY)",
        []⟩ := by
  rw [transcribeMediaWithWhisper, hl]
  have h1 : whisperLocalPhase args.mediaType false env.cpp = Sum.inr [] := by
    rw [whisperLocalPhase]; simp
  rw [h1]
  dsimp only
  simp [ho, hf]

/-- Claim C7, witness at the sample no-provider call. -/
theorem claim_C7_witness :
    whisperEnvBoom.localReady = false ∧
    truthy whisperArgsNoKeys.openaiApiKey = false ∧
    truthy whisperArgsNoKeys.falApiKey = false ∧
    transcribeMediaWithWhisper 1 whisperArgsNoKeys whisperEnvBoom = .ok
      ⟨none, none,
        some "No transcription providers available (install whisper-cpp or set OPENAI_API_KEY or FAL_KEY)",
        []⟩ :=
  ⟨rfl, rfl, rfl, claim_C7 0 whisperArgsNoKeys whisperEnvBoom rfl rfl rfl⟩

/-! ### Claim C8 -/

/-- Claim C8 (confirmed): every terminal (non-thrown) return of
`transcribeMediaWithWhisper` has at most one of `text` and `error`
non-null. -/
theorem claim_C8 (fuel : Nat) (args : BytesArgs) (env : BytesEnv)
    (r : WhisperTranscriptionResult)
    (h : transcribeMediaWithWhisper fuel args env = .ok r) :
    r.text = none ∨ r.error = none :=
  (whisper_exclusive_all fuel).1 args env r h

/-- Claim C8, witness: the sample failing-OpenAI call returns an error
with null text. -/
theorem claim_C8_witness :
    transcribeMediaWithWhisper 2 whisperArgsOpenai whisperEnvBoom = .ok
      ⟨none, some .openai, some "OpenAI transcription failed: boom", []⟩ ∧
    ((⟨none, some .openai, some "OpenAI transcription failed: boom", []⟩ :
        WhisperTranscriptionResult).text = none ∨
      (⟨none, some .openai, some "OpenAI transcription failed: boom", []⟩ :
        WhisperTranscriptionResult).error = none) :=
  ⟨by decide, claim_C8 2 whisperArgsOpenai whisperEnvBoom _ (by decide)⟩

/-! ### Claim C9 -/

theorem whisperSegmentLoop_fail
    (tw : BytesArgs → BytesEnv → Except String WhisperTranscriptionResult)
    (args : FileArgs) :
    ∀ (good : List (String × Nat × BytesEnv)) (bad : String × Nat × BytesEnv)
      (rest : List (String × Nat × BytesEnv)) (parts : List String)
      (up : Option TranscriptionProvider) (notes : List String) (err : String),
    (∀ e ∈ good, ∃ re, tw (segBytesArgs args e) e.2.2 = .ok re ∧
        ¬(re.error.isSome = true ∧ truthy re.text = false)) →
    (∃ rb, tw (segBytesArgs args bad) bad.2.2 = .ok rb ∧
        rb.error = some err ∧ rb.text = none) →
    ∃ up', whisperSegmentLoop tw args (good ++ bad :: rest) parts up notes =
      .ok ⟨none, up', some err, notes⟩ := by
  intro good
  induction good with
  | nil =>
    intro bad rest parts up notes err _ hbad
    obtain ⟨rb, hrb, herr, htext⟩ := hbad
    rw [List.nil_append, whisperSegmentLoop, hrb]
    dsimp only
    rw [herr, htext]
    simp only [Option.isSome_some, truthy, Bool.not_false, Bool.and_self, if_true]
    exact ⟨_, rfl⟩
  | cons e good' ih =>
    intro bad rest parts up notes err hgood hbad
    obtain ⟨re, hre, hok⟩ := hgood e (List.mem_cons_self e good')
    rw [List.cons_append, whisperSegmentLoop, hre]
    dsimp only
    have hcond : (re.error.isSome && !truthy re.text) = false := by
      cases he : re.error.isSome
      · simp
      · cases ht : truthy re.text
        · exact absurd ⟨he, ht⟩ hok
        · simp [ht]
    rw [hcond]
    simp only [Bool.false_eq_true, if_false]
    exact ih bad rest _ _ notes err
      (fun x hx => hgood x (List.mem_cons_of_mem e hx)) hbad

/-- Claim C9 (confirmed): during chunked transcription of an oversized
file, when the segments before some failing segment all succeed and that
segment's transcription yields an error with no text, the whole call
returns `text = null` carrying that segment's error — the text already
transcribed from the earlier segments is discarded, never returned as a
partial transcript. -/
theorem claim_C9 (fuel : Nat) (args : FileArgs) (env : FileEnv) (err : String)
    (good : List (String × Nat × BytesEnv)) (bad : String × Nat × BytesEnv)
    (rest : List (String × Nat × BytesEnv))
    (hl : env.localReady = false)
    (ho : truthy args.openaiApiKey = true)
    (hsize : MAX_OPENAI_UPLOAD_BYTES < env.fileSize)
    (hff : env.chunkFfmpeg = true)
    (hseg : env.segmentRun = .ok ())
    (hsplit : filterSortSegments env.segmentEntries = good ++ bad :: rest)
    (hgood : ∀ e ∈ good, ∃ re,
      transcribeMediaWithWhisper fuel (segBytesArgs args e) e.2.2 = .ok re ∧
        ¬(re.error.isSome = true ∧ truthy re.text = false))
    (hbad : ∃ rb, transcribeMediaWithWhisper fuel (segBytesArgs args bad) bad.2.2 = .ok rb ∧
        rb.error = some err ∧ rb.text = none) :
    ∃ up notes, transcribeMediaFileWithWhisper (fuel + 1) args env =
      .ok ⟨none, up, some err, notes⟩ := by
  rw [transcribeMediaFileWithWhisper, hl]
  have h1 : whisperLocalPhase args.mediaType false env.cpp = Sum.inr [] := by
    rw [whisperLocalPhase]; simp
  rw [h1]
  dsimp only
  rw [hseg, hff, hsplit]
  simp only [ho, Bool.not_true, Bool.false_and, Bool.false_eq_true, if_false,
    decide_eq_true hsize, Bool.true_and, if_true, List.isEmpty_eq_true]
  obtain ⟨up', hloop⟩ := whisperSegmentLoop_fail (transcribeMediaWithWhisper fuel) args
    good bad rest [] none _ err hgood hbad
  have hne : (good ++ bad :: rest).isEmpty = false := by
    cases good <;> simp
  rw [hne]
  simp only [Bool.false_eq_true, if_false]
  rw [hloop]
  exact ⟨up', _, rfl⟩

/-- Claim C9, witness: an oversized file chunked into a single failing
segment returns that segment's error with null text. -/
theorem claim_C9_witness :
    ∃ up notes, transcribeMediaFileWithWhisper 2 whisperFileArgsC9 whisperFileEnvC9 =
      .ok ⟨none, up, some "OpenAI transcription failed: boom", notes⟩ :=
  claim_C9 1 whisperFileArgsC9 whisperFileEnvC9 "OpenAI transcription failed: boom"
    [] ("part-000.mp3", 5, whisperEnvBoom) [] rfl rfl (by decide) rfl rfl rfl
    (fun e he => absurd he (List.not_mem_nil e))
    ⟨⟨none, some .openai, some "OpenAI transcription failed: boom", []⟩, by decide, rfl, rfl⟩

end Summarize
